/-
Verification of the panopticon kernel heap allocator
(src/kernel/src/allocator/mod.rs and src/kernel/src/allocator/sleb.rs).

The Rust code is shallowly embedded: machine integers (u16/u32/u64) become
`Nat` with explicit masking where wrap-around matters, arrays indexed by
integers become total functions `Nat → _` together with update helpers
(the scenarios proved below only exercise in-bounds indices; places where
the Rust code would perform an out-of-bounds access are called out in
comments), raw pointers become `Nat` addresses, and the null pointer /
panicking paths become `Option`.
-/
import Mathlib

set_option autoImplicit false
set_option maxRecDepth 1024

/-! ### Pointwise update of a function-backed array -/

/-- `updf f i v` is the array `f` with slot `i` overwritten by `v`. -/
def updf {α : Type} (f : Nat → α) (i : Nat) (v : α) : Nat → α :=
  fun j => if j = i then v else f j

/-! ### Constants (allocator/mod.rs) -/

def HEAP_START : Nat := 0x444444440000
def KB : Nat := 1024
def HEAP_SIZE : Nat := 4096 * KB
def HEAP_END : Nat := HEAP_START + HEAP_SIZE
def PAGESIZE : Nat := 4096
def BLOCK_SIZE : Nat := PAGESIZE

/-- Fueled floor-log2, mirroring Rust's `u64::ilog2` on positive inputs
(64 bits of fuel suffice for any `u64` value). -/
def ilog2Aux : Nat → Nat → Nat
  | 0, _ => 0
  | fuel + 1, n => if 2 ≤ n then ilog2Aux fuel (n / 2) + 1 else 0

def ilog2 (n : Nat) : Nat := ilog2Aux 64 n

def START_ORDER : Nat := ilog2 PAGESIZE

def NUM_ORDERS : Nat := ilog2 HEAP_SIZE - START_ORDER

def NUM_BLOCKS : Nat := HEAP_SIZE / 4096

def NO_BLOCK : Nat := 0xFFFF

/-! ### Block records and the buddy computation (allocator/mod.rs) -/

/-- One entry of the `blocks` array: `{previous, next, order, free}`. -/
structure Block where
  previous : Nat
  next : Nat
  order : Nat
  free : Bool
deriving DecidableEq

/-- `Block::split`: splitting an order-`order` block at `index` yields the
left half at `index` and the right half at `index + 2^(order-1)`. -/
def Block.split (order index : Nat) : Nat × Nat :=
  let new_order := order - 1
  (index, index + 2 ^ new_order)

/-- `Block::index_to_ptr`. -/
def Block.index_to_ptr (index : Nat) : Nat :=
  HEAP_START + index * BLOCK_SIZE

/-- The final `match` of `Block::get_buddy_index`: keep a candidate buddy
address only when it lies below `HEAP_END`, and convert it to a block
index. -/
def bounded_index (a : Nat) : Option Nat :=
  if a + HEAP_START < HEAP_END then some (a / PAGESIZE) else none

/-- `Block::get_buddy_index`.  The source computes on `u64`; for the orders a
live heap can record (`order + START_ORDER < 64`) the `u64` arithmetic never
wraps, so plain `Nat` arithmetic is faithful: `checked_add` cannot overflow
below the subsequent `< HEAP_END` bound, and `checked_sub` is mirrored by the
explicit `≤` guard (the final `else none` branch).  The source first builds
`buddy_address : Option<u64>` and then applies the bounds check to a `Some`;
here the bounds check (`bounded_index`) is applied in each `some` branch
directly, which is the same function. -/
def get_buddy_index (order : Nat) (address : Nat) : Option Nat :=
  if (address - HEAP_START) % 2 ^ (order + 1 + START_ORDER) = 0 then
    bounded_index (address - HEAP_START + 2 ^ (order + START_ORDER))
  else if 2 ^ (order + START_ORDER) ≤ address - HEAP_START then
    bounded_index (address - HEAP_START - 2 ^ (order + START_ORDER))
  else
    none

/-! ### BuddyAllocator state and methods (allocator/mod.rs) -/

structure BuddyAllocator where
  blocks : Nat → Block
  heads : Nat → Nat

/-- `BuddyAllocator::new`.  Note: the source initializes a local
`let mut blocks = [block; NUM_BLOCKS]`, sets `blocks[0].free = true` and
`blocks[0].order = NUM_ORDERS - 1`, but then constructs
`Self { blocks: [block; NUM_BLOCKS as usize], heads }` from a *fresh* copy of
`block`, discarding the mutated local.  The returned state therefore has every
block `{previous: NO_BLOCK, next: NO_BLOCK, order: 1, free: false}` while
`heads[NUM_ORDERS - 1] = 0`. -/
def BuddyAllocator.new : BuddyAllocator :=
  { blocks := fun _ => { previous := NO_BLOCK, next := NO_BLOCK, order := 1, free := false }
    heads := fun i => if i = NUM_ORDERS - 1 then 0 else NO_BLOCK }

/-- `BuddyAllocator::get_block_index`. -/
def get_block_index (ptr : Nat) : Nat :=
  (ptr - HEAP_START) / PAGESIZE

/-- `BuddyAllocator::pop_head`.  Faithful to the source, including the store
`self.heads[head_index as usize] = head.next` (indexed by the popped block's
index, not by `order`; for `head_index ≥ NUM_ORDERS` that store is an
out-of-bounds array write in Rust — the states used below keep it in
bounds). -/
def pop_head (a : BuddyAllocator) (order : Nat) : Option Nat × BuddyAllocator :=
  let head_index := a.heads order
  if head_index = NO_BLOCK then
    (none, a)
  else
    let blocks1 := updf a.blocks head_index { a.blocks head_index with free := false }
    let head := blocks1 head_index
    let heads1 := updf a.heads head_index head.next
    (some head_index, { blocks := blocks1, heads := heads1 })

/-- `BuddyAllocator::push_block`. -/
def push_block (a : BuddyAllocator) (order block_index : Nat) : BuddyAllocator :=
  let head_index := a.heads order
  let blocks1 :=
    if head_index ≠ NO_BLOCK then
      updf a.blocks head_index { a.blocks head_index with previous := block_index }
    else
      a.blocks
  let heads1 := updf a.heads order block_index
  let blocks2 := updf blocks1 block_index
    { blocks1 block_index with next := head_index, order := order, free := true }
  { blocks := blocks2, heads := heads1 }

/-- `BuddyAllocator::remove_block`. -/
def remove_block (a : BuddyAllocator) (order block_index : Nat) : BuddyAllocator :=
  let blocks1 := updf a.blocks block_index { a.blocks block_index with free := false }
  let prev_index := (blocks1 block_index).previous
  let next_index := (blocks1 block_index).next
  let state1 : BuddyAllocator :=
    if prev_index ≠ NO_BLOCK then
      let blocks2 := updf blocks1 block_index { blocks1 block_index with previous := NO_BLOCK }
      let blocks3 := updf blocks2 prev_index { blocks2 prev_index with next := next_index }
      { blocks := blocks3, heads := a.heads }
    else if a.heads order = block_index then
      { blocks := blocks1, heads := updf a.heads order next_index }
    else
      { blocks := blocks1, heads := a.heads }
  if next_index ≠ NO_BLOCK then
    let blocks4 := updf state1.blocks block_index { state1.blocks block_index with next := NO_BLOCK }
    let blocks5 := updf blocks4 next_index { blocks4 next_index with previous := prev_index }
    { blocks := blocks5, heads := state1.heads }
  else
    state1

/-- `round_up_pow2` (the shift-or cascade on `u64`). -/
def round_up_pow2 (num : Nat) : Nat :=
  let n := num - 1
  let n := n ||| (n >>> 1)
  let n := n ||| (n >>> 2)
  let n := n ||| (n >>> 4)
  let n := n ||| (n >>> 8)
  let n := n ||| (n >>> 16)
  let n := n ||| (n >>> 32)
  n + 1

/-! ### The dispatcher (`GlobalAlloc for Locked<BuddyAllocator>`) -/

/-- Where `alloc` routes a request: to the Sleb sub-allocator or to the buddy
allocator at a given order. -/
inductive AllocRoute where
  | sleb : AllocRoute
  | buddy : Nat → AllocRoute
deriving DecidableEq

/-- The order computed by `alloc` for a request that is not served by Sleb:
`(max(PAGESIZE, round_up_pow2 (size or align))).ilog2() - PAGESIZE.ilog2()`. -/
def alloc_order_start (size align : Nat) : Nat :=
  let alloc_size :=
    if size > align then ilog2 (max PAGESIZE (round_up_pow2 size))
    else ilog2 (max PAGESIZE (round_up_pow2 align))
  alloc_size - ilog2 PAGESIZE

/-- The size test at the top of `alloc`: `max(size, align) <= 2048` goes to
Sleb, everything else to the buddy allocator. -/
def dispatch_route (size align : Nat) : AllocRoute :=
  if max size align ≤ 2048 then AllocRoute.sleb
  else AllocRoute.buddy (alloc_order_start size align)

/-- The split loop inside `alloc`:
`for down_order in ((order_start + 1)..=order).rev()` pushes the right half of
each split one order down; the `count` argument is the number of remaining
iterations (`order - order_start` at the initial call). -/
def split_loop : Nat → BuddyAllocator → Nat → Nat → BuddyAllocator
  | 0, a, _, _ => a
  | count + 1, a, index, down_order =>
    let right := (Block.split down_order index).2
    split_loop count (push_block a (down_order - 1) right) index (down_order - 1)

/-- The ascending scan in `alloc` over orders `order .. NUM_ORDERS`;
`count` is the number of orders left to visit. -/
def alloc_scan : Nat → BuddyAllocator → Nat → Nat → Option Nat × BuddyAllocator
  | 0, a, _, _ => (none, a)
  | count + 1, a, order_start, order =>
    match pop_head a order with
    | (some index, a1) =>
      let a2 := split_loop (order - order_start) a1 index order
      let a3 := { a2 with blocks := updf a2.blocks index { a2.blocks index with order := order_start } }
      (some (Block.index_to_ptr index), a3)
    | (none, a1) => alloc_scan count a1 order_start (order + 1)

/-- The buddy branch of `alloc`, given the already-computed starting order.
`none` models the null-pointer return on exhaustion. -/
def buddy_alloc (a : BuddyAllocator) (order_start : Nat) : Option Nat × BuddyAllocator :=
  match pop_head a order_start with
  | (some index, a1) => (some (Block.index_to_ptr index), a1)
  | (none, a1) => alloc_scan (NUM_ORDERS - (order_start + 1)) a1 order_start (order_start + 1)

/-! ### `dealloc` (the buddy branch, after the Sleb `within_bounds` test) -/

/-- The body of one `dealloc` loop iteration once a buddy index is known:
continue (yielding the buddy to remove) when it is free, otherwise
`break`. -/
def step_body (a : BuddyAllocator) (buddy_index : Nat) : Option Nat :=
  if (a.blocks buddy_index).free then some buddy_index else none

/-- One test of the `while let` loop in `dealloc`: the coalescing step
succeeds (returning the buddy to be removed) exactly when the buddy at
`order` exists and is free. -/
def coalesce_step (a : BuddyAllocator) (order addr : Nat) : Option Nat :=
  (get_buddy_index order addr).bind (fun buddy_index => step_body a buddy_index)

/-- The `while let Some(buddy_index) = get_buddy_index(order, block_addr)`
loop of `dealloc`, with explicit fuel; returns the final order and state.
Each successful step removes the free buddy and moves one order up.  For any
address inside the heap the loop body runs at most `NUM_ORDERS` times
(`get_buddy_index` returns `none` once the order reaches `NUM_ORDERS`, see
`get_buddy_none_of_ge`), so any fuel `≥ NUM_ORDERS + 1` computes the loop's
true fixpoint. -/
def coalesce_loop : Nat → BuddyAllocator → Nat → Nat → Nat × BuddyAllocator
  | 0, a, order, _ => (order, a)
  | fuel + 1, a, order, addr =>
    (coalesce_step a order addr).elim (order, a)
      (fun b => coalesce_loop fuel (remove_block a order b) (order + 1) addr)

/-- The state after `k` successful coalescing steps starting from `a` at
`order` (used to state what `dealloc` does; falls back to the current state
once a step fails). -/
def coalesce_iter (addr : Nat) : Nat → BuddyAllocator → Nat → BuddyAllocator
  | 0, a, _ => a
  | k + 1, a, order =>
    (coalesce_step a order addr).elim a
      (fun b => coalesce_iter addr k (remove_block a order b) (order + 1))

/-- The buddy branch of `dealloc(ptr, _layout)`: the caller-supplied layout
parameters `_size`/`_align` are bound but (exactly as in the source, whose
parameter is spelled `_layout`) never read.  Applies only to pointers for
which `sleb.within_bounds(ptr)` is false. -/
def buddy_dealloc (a : BuddyAllocator) (ptr : Nat) (_size _align : Nat) :
    BuddyAllocator :=
  let block_index := get_block_index ptr
  let order := (a.blocks block_index).order
  let r := coalesce_loop 64 a order ptr
  push_block r.2 r.1 block_index

/-! ### Sleb: constants and metadata (allocator/sleb.rs) -/

def u64MAX : Nat := 2 ^ 64 - 1

def BUCKET_INDEX_NONE : Nat := 2 ^ 32 - 2

/-- `size_of::<SlebMetadata>() = 16`, so `PAGESIZE / 16 - 1 = 255`. -/
def ENTRIES_PER_PAGE : Nat := PAGESIZE / 16 - 1

def ONE_MIB : Nat := 1048576

def SMALL_32_BITFIELD_SIZE_64 : Nat := (4096 / 32) / 64

def SMALL_32_PAGES_PER_PAGE : Nat := 4096 / 32 - 1

/-- The `MetadataType` enum with its source discriminants:
note that the declaration assigns `Medium512 = 4` and `Medium256 = 5`. -/
inductive MetadataType where
  | Empty
  | Tiny32
  | Medium64
  | Medium128
  | Medium512
  | Medium256
  | Medium1024
  | Medium2048
deriving DecidableEq

/-- The numeric discriminant (`md_type as u8`) of each variant, following the
declaration order in the source: `Empty = 0, Tiny32 = 1, Medium64 = 2,
Medium128 = 3, Medium512 = 4, Medium256 = 5, Medium1024 = 6,
Medium2048 = 7`. -/
def MetadataType.tag : MetadataType → Nat
  | .Empty => 0
  | .Tiny32 => 1
  | .Medium64 => 2
  | .Medium128 => 3
  | .Medium512 => 4
  | .Medium256 => 5
  | .Medium1024 => 6
  | .Medium2048 => 7

/-- The packed `SlebBits` bitfield, modelled as a record; setters mask to the
declared field widths (3 bits for the type, 30 bits for each link). -/
structure SlebBits where
  sleb_type : Nat
  next_index : Nat
  prev_index : Nat
deriving DecidableEq

def SlebBits.set_type (b : SlebBits) (v : Nat) : SlebBits :=
  { b with sleb_type := v % 8 }

def SlebBits.set_next (b : SlebBits) (v : Nat) : SlebBits :=
  { b with next_index := v % 2 ^ 30 }

def SlebBits.set_prev (b : SlebBits) (v : Nat) : SlebBits :=
  { b with prev_index := v % 2 ^ 30 }

structure SlebMetadata where
  bits : SlebBits
  extra_bits : Nat
deriving DecidableEq

/-- `SlebMetadata::get_type`: decode the 3-bit tag.  Note the decoding order
(`4 => Medium256`, `5 => Medium512`) relative to `MetadataType.tag`. -/
def SlebMetadata.get_type (md : SlebMetadata) : MetadataType :=
  match md.bits.sleb_type with
  | 0 => .Empty
  | 1 => .Tiny32
  | 2 => .Medium64
  | 3 => .Medium128
  | 4 => .Medium256
  | 5 => .Medium512
  | 6 => .Medium1024
  | _ => .Medium2048

/-- Fueled count of trailing one-bits, mirroring `u64::trailing_ones`
(64 bits of fuel are exact for `u64` values). -/
def trailing_ones_aux : Nat → Nat → Nat
  | 0, _ => 0
  | fuel + 1, b => if b % 2 = 1 then trailing_ones_aux fuel (b / 2) + 1 else 0

def trailing_ones (b : Nat) : Nat := trailing_ones_aux 64 b

/-! ### Sleb: carved-page state and operations -/

/-- The two `u64` words of a `TinyMetadataPage`'s in-page bitfield
(`bitfield: [u64; SMALL_32_BITFIELD_SIZE_64]` with
`SMALL_32_BITFIELD_SIZE_64 = 2`). -/
structure TinyBitfield where
  w0 : Nat
  w1 : Nat
deriving DecidableEq

/-- `TinyMetadataPage::find_free_slot`, returning the claimed slot index (the
source returns `&entries[slot]`; `entries` has `SMALL_32_PAGES_PER_PAGE = 127`
elements, so a returned slot `≥ 127` is an out-of-bounds access in the
source).  `none` models the null return when both words are all-ones. -/
def find_free_slot (p : TinyBitfield) : Option Nat × TinyBitfield :=
  if p.w0 ≠ u64MAX then
    let trailing := trailing_ones p.w0
    (some trailing, { p with w0 := p.w0 ||| 2 ^ trailing })
  else if p.w1 ≠ u64MAX then
    let trailing := trailing_ones p.w1
    (some (64 + trailing), { p with w1 := p.w1 ||| 2 ^ trailing })
  else
    (none, p)

/-- Whole-model Sleb state: the metadata page entries, the per-page tiny
bitfields (contents of pages carved for the 32-byte class), and the
`TINY_BUCKETS` / `MEDIUM_BUCKETS` statics (raw `u32` values;
`BUCKET_INDEX_NONE` means empty). -/
structure SlebState where
  metadata : Nat → SlebMetadata
  tinyPages : Nat → TinyBitfield
  tinyBucket : Nat
  mediumBuckets : Nat → Nat

/-- The state right after `SlebMetadataPage::init` zeroed the metadata page,
with the bucket statics at their initial `BUCKET_INDEX_NONE` values. -/
def SlebState.init : SlebState :=
  { metadata := fun _ => { bits := { sleb_type := 0, next_index := 0, prev_index := 0 }, extra_bits := 0 }
    tinyPages := fun _ => { w0 := 0, w1 := 0 }
    tinyBucket := BUCKET_INDEX_NONE
    mediumBuckets := fun _ => BUCKET_INDEX_NONE }

/-- Overwrite one metadata entry (`self.metadata[i] = md`). -/
def set_metadata (s : SlebState) (i : Nat) (md : SlebMetadata) : SlebState :=
  { s with metadata := updf s.metadata i md }

/-- Overwrite one carved tiny page's in-page bitfield. -/
def set_tiny_page (s : SlebState) (i : Nat) (p : TinyBitfield) : SlebState :=
  { s with tinyPages := updf s.tinyPages i p }

/-- `BucketIndex::get`. -/
def bucket_get (v : Nat) : Option Nat :=
  if v = BUCKET_INDEX_NONE then none else some v

/-- `index_to_ptr` / `index_to_mut_ptr`, with addresses measured relative to
the metadata page's own base (`base = 0` in the model): carved page `index`
starts at `PAGESIZE * (index + 1)`. -/
def page_base (index : Nat) : Nat := PAGESIZE * (index + 1)

/-- `find_empty_page`, scanning the metadata array for the first `Empty`
entry and stamping it with `md_type as u8`; `remaining` counts the entries
left to visit (`ENTRIES_PER_PAGE` at the initial call). -/
def find_empty_page_from (s : SlebState) (md_type : MetadataType) :
    Nat → Nat → Option Nat × SlebState
  | _, 0 => (none, s)
  | i, remaining + 1 =>
    if (s.metadata i).get_type = .Empty then
      (some i, set_metadata s i
        { s.metadata i with bits := (s.metadata i).bits.set_type md_type.tag })
    else
      find_empty_page_from s md_type (i + 1) remaining

def find_empty_page (s : SlebState) (md_type : MetadataType) :
    Option Nat × SlebState :=
  find_empty_page_from s md_type 0 ENTRIES_PER_PAGE

/-- `alloc_tiny`.  The `while let Some(i) = buckets[0].get()` loop is given
explicit fuel (the bucket chain is finite in any reachable state; the
scenarios below exit the loop immediately).  The returned address of slot `n`
of page `i` is `page_base i + 16 + 32 * n` (the 16-byte in-page bitfield
precedes `entries`).  Note that the promotion branch does *not* update the
tiny bucket. -/
def alloc_tiny_loop : Nat → SlebState → Option Nat × SlebState
  | 0, s => (none, s)
  | fuel + 1, s =>
    match bucket_get s.tinyBucket with
    | some i =>
      let md := s.metadata i
      let r := find_free_slot (s.tinyPages i)
      match r.1 with
      | some slot =>
        (some (page_base i + 16 + 32 * slot), set_tiny_page s i r.2)
      | none =>
        alloc_tiny_loop fuel { s with tinyBucket := md.bits.next_index }
    | none =>
      match find_empty_page s .Tiny32 with
      | (none, s1) => (none, s1)
      | (some i, s1) =>
        -- reset the in-page bitfield, then take a slot
        let s2 := set_tiny_page s1 i { w0 := 0, w1 := 0 }
        let r := find_free_slot (s2.tinyPages i)
        let s3 := set_tiny_page s2 i r.2
        match r.1 with
        | some slot => (some (page_base i + 16 + 32 * slot), s3)
        | none => (none, s3)

def alloc_tiny (s : SlebState) : Option Nat × SlebState :=
  alloc_tiny_loop (ENTRIES_PER_PAGE + 1) s

/-- The `(md_type, extra_bits)` table in `alloc_medium`: the initial bitmap
pre-marks bit 0 (the slot about to be returned) and every slot index beyond
the page's capacity for the class.  The source marks `index > 5`
`unreachable!()`; `alloc` only ever passes `0..=5`. -/
def medium_promotion : Nat → MetadataType × Nat
  | 0 => (.Medium64, 0x0000000000000001)
  | 1 => (.Medium128, 0xFFFFFFFF00000001)
  | 2 => (.Medium256, 0xFFFFFFFFFFFF0001)
  | 3 => (.Medium512, 0xFFFFFFFFFFFFFF01)
  | 4 => (.Medium1024, 0xFFFFFFFFFFFFFFF1)
  | _ => (.Medium2048, 0xFFFFFFFFFFFFFFFD)

/-- `MetadataPage::take_slot`: slot `slot` of size `size` lives at offset
`slot * size` from the carved page's base. -/
def take_slot (page : Nat) (slot size : Nat) : Nat :=
  page_base page + slot * size

/-- `alloc_medium` for bucket `index` (class size `2^(index + 6)`), with
explicit fuel for the bucket-chain walk.  As in `alloc_tiny`, the promotion
branch does not update the class bucket. -/
def alloc_medium_loop : Nat → SlebState → Nat → Option Nat × SlebState
  | 0, s, _ => (none, s)
  | fuel + 1, s, index =>
    match bucket_get (s.mediumBuckets index) with
    | some i =>
      let slot := trailing_ones (s.metadata i).extra_bits
      if slot < 64 then
        let s1 := set_metadata s i
          { s.metadata i with extra_bits := (s.metadata i).extra_bits ||| 2 ^ slot }
        (some (take_slot i slot (2 ^ (index + 6))), s1)
      else
        alloc_medium_loop fuel
          { s with mediumBuckets := updf s.mediumBuckets index (s.metadata i).bits.next_index }
          index
    | none =>
      let promo := medium_promotion index
      match find_empty_page s promo.1 with
      | (none, s1) => (none, s1)
      | (some i, s1) =>
        let s2 := set_metadata s1 i { s1.metadata i with extra_bits := promo.2 }
        (some (take_slot i 0 (2 ^ (index + 6))), s2)

def alloc_medium (s : SlebState) (index : Nat) : Option Nat × SlebState :=
  alloc_medium_loop (ENTRIES_PER_PAGE + 1) s index

/-- `SlebMetadataPage::alloc`: dispatch on the requested size (the source's
`match` over `0..=32 | 33..=64 | ... | 1025..=2048`); a size above 2048
panics in the source (`none` here). -/
def sleb_alloc (s : SlebState) (size : Nat) : Option Nat × SlebState :=
  if size ≤ 32 then alloc_tiny s
  else if size ≤ 64 then alloc_medium s 0
  else if size ≤ 128 then alloc_medium s 1
  else if size ≤ 256 then alloc_medium s 2
  else if size ≤ 512 then alloc_medium s 3
  else if size ≤ 1024 then alloc_medium s 4
  else if size ≤ 2048 then alloc_medium s 5
  else (none, s)

/-- `free_tiny` (release semantics: the `debug_assert!` that the slot's bit
is set compiles out). -/
def free_tiny (s : SlebState) (md_index ptr : Nat) : SlebState :=
  let ptr_offset := ptr % PAGESIZE
  let slot := ptr_offset / 32
  let pg := s.tinyPages md_index
  let was_full := pg.w0 = u64MAX ∧ pg.w1 = u64MAX
  let pg1 :=
    if slot / 64 = 0 then { pg with w0 := pg.w0 &&& (u64MAX ^^^ 2 ^ (slot % 64)) }
    else { pg with w1 := pg.w1 &&& (u64MAX ^^^ 2 ^ (slot % 64)) }
  let s1 := set_tiny_page s md_index pg1
  if was_full then
    match bucket_get s1.tinyBucket with
    | none => { s1 with tinyBucket := md_index }
    | some i =>
      let s2 := set_metadata s1 i
        { s1.metadata i with bits := (s1.metadata i).bits.set_prev md_index }
      let s3 := { s2 with tinyBucket := md_index }
      set_metadata s3 md_index
        { s3.metadata md_index with bits := (s3.metadata md_index).bits.set_next i }
  else
    s1

/-- `free_medium` (release semantics for the `debug_assert!`; the shift in
`1u64 << slot` is masked modulo 64 as in a release build, though the
scenarios below keep `slot < 64`).  Note the slot computation
`ptr_offset / 32` — the divisor is 32 for every medium class. -/
def free_medium (s : SlebState) (md_index bucket_index ptr : Nat) : SlebState :=
  let ptr_offset := ptr % PAGESIZE
  let slot := ptr_offset / 32
  let was_full := (s.metadata md_index).extra_bits = u64MAX
  let s1 := set_metadata s md_index
    { s.metadata md_index with
      extra_bits := (s.metadata md_index).extra_bits &&& (u64MAX ^^^ 2 ^ (slot % 64)) }
  if was_full then
    match bucket_get (s1.mediumBuckets bucket_index) with
    | none => { s1 with mediumBuckets := updf s1.mediumBuckets bucket_index md_index }
    | some i =>
      let s2 := set_metadata s1 i
        { s1.metadata i with bits := (s1.metadata i).bits.set_prev md_index }
      let s3 := { s2 with mediumBuckets := updf s2.mediumBuckets bucket_index md_index }
      set_metadata s3 md_index
        { s3.metadata md_index with bits := (s3.metadata md_index).bits.set_next i }
  else
    s1

/-- `SlebMetadataPage::free`: recover the owning metadata index from the
pointer (`distance / 4096 - 1`, addresses relative to the metadata page) and
dispatch on the entry's stored type tag.  `none` models the panic on an
`Empty` entry. -/
def sleb_free (s : SlebState) (ptr : Nat) : Option SlebState :=
  let index := ptr / 4096 - 1
  match (s.metadata index).get_type with
  | .Tiny32 => some (free_tiny s index ptr)
  | .Medium64 => some (free_medium s index 0 ptr)
  | .Medium128 => some (free_medium s index 1 ptr)
  | .Medium256 => some (free_medium s index 2 ptr)
  | .Medium512 => some (free_medium s index 3 ptr)
  | .Medium1024 => some (free_medium s index 4 ptr)
  | .Medium2048 => some (free_medium s index 5 ptr)
  | .Empty => none

/-- Repeated 32-byte allocation against one tiny page's in-page bitfield:
each round calls `find_free_slot` and records the slot it claimed (this is
what a sequence of `alloc_tiny` calls does to a page while the bucket keeps
naming it).  Stops early if a round finds no slot. -/
def tiny_alloc_seq : Nat → TinyBitfield → List Nat × TinyBitfield
  | 0, p => ([], p)
  | n + 1, p =>
    match find_free_slot p with
    | (some s, p1) =>
      let r := tiny_alloc_seq n p1
      (s :: r.1, r.2)
    | (none, p1) => ([], p1)

/-- A Sleb state whose page 0 is a Medium64 page (type tag
`MetadataType.tag .Medium64 = 2`) with slots 0, 1 and 2 allocated
(`extra_bits = 0b111`); every other page is untouched. -/
def medium64_state : SlebState :=
  set_metadata SlebState.init 0
    { bits := { sleb_type := MetadataType.tag .Medium64, next_index := 0, prev_index := 0 }
      extra_bits := 7 }

/-! ### Helper lemmas about `get_buddy_index` and the coalescing loop -/

theorem updf_same {α : Type} (f : Nat → α) (i : Nat) (v : α) :
    updf f i v i = v := by
  simp [updf]

theorem updf_other {α : Type} (f : Nat → α) (i j : Nat) (v : α)
    (h : j ≠ i) : updf f i v j = f j := by
  simp [updf, h]

/-- Once the order reaches `NUM_ORDERS`, no buddy exists for any address
inside the heap: the candidate buddy address is out of bounds in the lower
case and underflows in the upper case. -/
theorem get_buddy_none_of_ge (order addr : Nat) (h : NUM_ORDERS ≤ order)
    (h1 : HEAP_START ≤ addr) (h2 : addr < HEAP_END) :
    get_buddy_index order addr = none := by
  have hnum : NUM_ORDERS = 10 := by decide
  have hso : START_ORDER = 12 := by decide
  have hpow : (2 : Nat) ^ 22 = 4194304 := by decide
  have h22 : (2 : Nat) ^ 22 ≤ 2 ^ (order + START_ORDER) :=
    Nat.pow_le_pow_right (by norm_num) (by omega)
  have hEnd : HEAP_END = HEAP_START + 4096 * 1024 := by decide
  by_cases hmod : (addr - HEAP_START) % 2 ^ (order + 1 + START_ORDER) = 0
  · have hb : ¬ (addr - HEAP_START + 2 ^ (order + START_ORDER) + HEAP_START < HEAP_END) := by
      omega
    rw [get_buddy_index, if_pos hmod, bounded_index, if_neg hb]
  · have hb : ¬ (2 ^ (order + START_ORDER) ≤ addr - HEAP_START) := by omega
    rw [get_buddy_index, if_neg hmod, if_neg hb]

/-- Unfolding `coalesce_step` when no buddy exists. -/
theorem coalesce_step_eq_none (a : BuddyAllocator) (order addr : Nat)
    (hg : get_buddy_index order addr = none) :
    coalesce_step a order addr = none := by
  rw [coalesce_step, hg]
  rfl

/-- Unfolding `coalesce_step` when a buddy exists. -/
theorem coalesce_step_eq_body (a : BuddyAllocator) (order addr b : Nat)
    (hg : get_buddy_index order addr = some b) :
    coalesce_step a order addr = step_body a b := by
  rw [coalesce_step, hg]
  rfl

/-- Inversion for a successful coalescing step: it names a free buddy. -/
theorem coalesce_step_some (a : BuddyAllocator) (order addr b : Nat)
    (h : coalesce_step a order addr = some b) :
    get_buddy_index order addr = some b ∧ (a.blocks b).free = true := by
  cases hg : get_buddy_index order addr with
  | none =>
    rw [coalesce_step_eq_none a order addr hg] at h
    cases h
  | some b0 =>
    rw [coalesce_step_eq_body a order addr b0 hg] at h
    rw [step_body] at h
    by_cases hf : (a.blocks b0).free = true
    · rw [if_pos hf] at h
      injection h with hb
      subst hb
      exact ⟨rfl, hf⟩
    · rw [if_neg hf] at h
      cases h

/-- A coalescing step at an order `≥ NUM_ORDERS` always fails for heap
addresses. -/
theorem coalesce_step_none_of_ge (a : BuddyAllocator) (order addr : Nat)
    (h : NUM_ORDERS ≤ order) (h1 : HEAP_START ≤ addr) (h2 : addr < HEAP_END) :
    coalesce_step a order addr = none :=
  coalesce_step_eq_none a order addr (get_buddy_none_of_ge order addr h h1 h2)

/-- Unfolding one iteration of `coalesce_loop` when the step succeeds. -/
theorem coalesce_loop_succ_some (fuel : Nat) (a : BuddyAllocator)
    (order addr b : Nat) (h : coalesce_step a order addr = some b) :
    coalesce_loop (fuel + 1) a order addr
      = coalesce_loop fuel (remove_block a order b) (order + 1) addr := by
  rw [coalesce_loop, h]
  rfl

/-- Unfolding one iteration of `coalesce_loop` when the step fails. -/
theorem coalesce_loop_succ_none (fuel : Nat) (a : BuddyAllocator)
    (order addr : Nat) (h : coalesce_step a order addr = none) :
    coalesce_loop (fuel + 1) a order addr = (order, a) := by
  rw [coalesce_loop, h]
  rfl

/-- Unfolding one successful step of the iterated coalescing state. -/
theorem coalesce_iter_succ (addr : Nat) (a : BuddyAllocator) (order b : Nat)
    (h : coalesce_step a order addr = some b) (k : Nat) :
    coalesce_iter addr (k + 1) a order
      = coalesce_iter addr k (remove_block a order b) (order + 1) := by
  rw [coalesce_iter, h]
  rfl

/-- Full characterization of the coalescing loop of `dealloc` for addresses
inside the heap: with enough fuel the loop performs some number `k` of
coalescing steps, each removing a free buddy at successive orders, and stops
at the first order whose buddy is missing or not free. -/
theorem coalesce_loop_char (addr : Nat) (h1 : HEAP_START ≤ addr)
    (h2 : addr < HEAP_END) :
    ∀ fuel a order, NUM_ORDERS ≤ order + fuel →
    ∃ k, coalesce_loop fuel a order addr = (order + k, coalesce_iter addr k a order) ∧
      (∀ i, i < k → ∃ b,
        get_buddy_index (order + i) addr = some b ∧
        ((coalesce_iter addr i a order).blocks b).free = true) ∧
      coalesce_step (coalesce_iter addr k a order) (order + k) addr = none := by
  intro fuel
  induction fuel with
  | zero =>
    intro a order hord
    refine ⟨0, rfl, ?_, ?_⟩
    · intro i hi
      exact absurd hi (Nat.not_lt_zero i)
    · exact coalesce_step_none_of_ge _ _ _ (by omega) h1 h2
  | succ fuel ih =>
    intro a order hord
    cases hstep : coalesce_step a order addr with
    | none =>
      refine ⟨0, ?_, ?_, ?_⟩
      · exact coalesce_loop_succ_none fuel a order addr hstep
      · intro i hi
        exact absurd hi (Nat.not_lt_zero i)
      · exact hstep
    | some b =>
      obtain ⟨k', hk1, hk2, hk3⟩ := ih (remove_block a order b) (order + 1) (by omega)
      refine ⟨k' + 1, ?_, ?_, ?_⟩
      · rw [coalesce_loop_succ_some fuel a order addr b hstep, hk1,
          coalesce_iter_succ addr a order b hstep k']
        have harith : order + 1 + k' = order + (k' + 1) := by omega
        rw [harith]
      · intro i hi
        cases i with
        | zero =>
          obtain ⟨hg, hf⟩ := coalesce_step_some a order addr b hstep
          exact ⟨b, hg, hf⟩
        | succ j =>
          obtain ⟨b1, hb1, hb2⟩ := hk2 j (by omega)
          refine ⟨b1, ?_, ?_⟩
          · have harith : order + (j + 1) = order + 1 + j := by omega
            rw [harith]
            exact hb1
          · rw [coalesce_iter_succ addr a order b hstep j]
            exact hb2
      · rw [coalesce_iter_succ addr a order b hstep k']
        have harith : order + (k' + 1) = order + 1 + k' := by omega
        rw [harith]
        exact hk3

/-! ### Claim theorems -/

/-- C1: the claim states that for every allocate/deallocate sequence
respecting the consumer contract, no two simultaneously live allocations
overlap.  The code violates it: starting from the initial allocator state,
two consecutive dispatcher allocations of 2 MiB (size 2097152, align 1) are
both routed to the buddy allocator at order 9 and both return the address
`HEAP_START` — the same block, with no deallocation in between — because
`pop_head` stores the successor into `heads[head_index]` instead of
`heads[order]`, leaving block 0 at the head of order 9's free list. -/
theorem C1_two_live_allocations_overlap :
    dispatch_route 2097152 1 = AllocRoute.buddy 9 ∧
    (buddy_alloc BuddyAllocator.new 9).1 = some HEAP_START ∧
    (buddy_alloc (buddy_alloc BuddyAllocator.new 9).2 9).1 = some HEAP_START := by
  refine ⟨by decide, by decide, by decide⟩

/-- C2: the claim states that the constructed initial state has exactly one
free block spanning the whole heap at the maximum order, at the head of the
maximum order's free list.  In the state `BuddyAllocator::new` actually
returns, no block at all is free and block 0 records order 1 (the constructor
initializes a local `blocks` array and then discards it), while
`heads[NUM_ORDERS-1] = 0`; moreover a block of the maximum recorded order
`NUM_ORDERS - 1 = 9` spans `2^9` pages, only half of the 1024-page heap. -/
theorem C2_initial_state_has_no_free_block :
    (BuddyAllocator.new.blocks 0).free = false ∧
    (BuddyAllocator.new.blocks 0).order = 1 ∧
    (∀ i : Nat, (BuddyAllocator.new.blocks i).free = false) ∧
    BuddyAllocator.new.heads (NUM_ORDERS - 1) = 0 ∧
    2 ^ (NUM_ORDERS - 1) * PAGESIZE ≠ HEAP_SIZE := by
  refine ⟨by decide, by decide, fun i => rfl, by decide, by decide⟩

/-- C3: the claim states that a successful `pop_head(order)` makes the popped
block's former `next` link the new head of `order`'s free list.  The code
instead writes `head.next` into `heads[head_index]`: popping order 9 of the
initial state (head block 0, whose `next` is `NO_BLOCK`) returns `Some 0` and
marks block 0 used, but leaves `heads[9] = 0` — still the popped block, not
its former `next`. -/
theorem C3_pop_head_updates_wrong_head :
    (pop_head BuddyAllocator.new (NUM_ORDERS - 1)).1 = some 0 ∧
    (BuddyAllocator.new.blocks 0).next = NO_BLOCK ∧
    ((pop_head BuddyAllocator.new (NUM_ORDERS - 1)).2.blocks 0).free = false ∧
    (pop_head BuddyAllocator.new (NUM_ORDERS - 1)).2.heads (NUM_ORDERS - 1) = 0 ∧
    (0 : Nat) ≠ NO_BLOCK := by
  refine ⟨by decide, by decide, by decide, by decide, by decide⟩

/-- C4 counterexample: the claim places the buddy of a block of order k at
relative address A at distance `2^(k+1) * pagesize`.  At order 0 and address
`HEAP_START` (A = 0) the code returns block index 1, whose address is
`HEAP_START + 2^0 * pagesize = HEAP_START + 4096`, not the claimed
`HEAP_START + 2^1 * pagesize = HEAP_START + 8192` (block index 2). -/
theorem C4_buddy_distance_counterexample :
    get_buddy_index 0 (HEAP_START + 0) = some 1 ∧
    Block.index_to_ptr 1 = HEAP_START + 0 + 2 ^ 0 * PAGESIZE ∧
    (2 : Nat) ^ 0 * PAGESIZE ≠ 2 ^ (0 + 1) * PAGESIZE ∧
    (1 : Nat) ≠ (0 + 2 ^ (0 + 1) * PAGESIZE) / PAGESIZE := by
  refine ⟨by decide, by decide, by decide, by decide⟩

/-- C4 (amended): for a block of order k at relative address A inside the
heap (A a multiple of the block size `2^(k + START_ORDER)`), the buddy-index
computation yields the block at `A + 2^k * pagesize` when A is a multiple of
`2^(k+1) * pagesize`, and the block at `A - 2^k * pagesize` otherwise, and it
yields no buddy exactly when the chosen address falls outside the heap
bounds (in the minus case the address is always inside). -/
theorem C4_buddy_offset (k A : Nat) (hA : A % 2 ^ (k + START_ORDER) = 0)
    (hlt : A < HEAP_SIZE) :
    get_buddy_index k (HEAP_START + A) =
      if A % 2 ^ (k + 1 + START_ORDER) = 0 then
        (if A + 2 ^ (k + START_ORDER) < HEAP_SIZE then
           some ((A + 2 ^ (k + START_ORDER)) / PAGESIZE)
         else none)
      else
        some ((A - 2 ^ (k + START_ORDER)) / PAGESIZE) := by
  have hshift : HEAP_START + A - HEAP_START = A := by omega
  have hEnd : HEAP_END = HEAP_START + HEAP_SIZE := rfl
  by_cases hmod : A % 2 ^ (k + 1 + START_ORDER) = 0
  · rw [get_buddy_index, hshift, if_pos hmod, if_pos hmod, bounded_index]
    by_cases hb : A + 2 ^ (k + START_ORDER) < HEAP_SIZE
    · rw [if_pos (show A + 2 ^ (k + START_ORDER) + HEAP_START < HEAP_END by omega),
        if_pos hb]
    · rw [if_neg (show ¬ (A + 2 ^ (k + START_ORDER) + HEAP_START < HEAP_END) by omega),
        if_neg hb]
  · have hle : 2 ^ (k + START_ORDER) ≤ A := by
      rcases Nat.lt_or_ge A (2 ^ (k + START_ORDER)) with hlt2 | hge
      · exfalso
        have hz : A = 0 :=
          Nat.eq_zero_of_dvd_of_lt (Nat.dvd_of_mod_eq_zero hA) hlt2
        apply hmod
        rw [hz]
        exact Nat.zero_mod _
      · exact hge
    rw [get_buddy_index, hshift, if_neg hmod, if_pos hle, bounded_index,
      if_pos (show A - 2 ^ (k + START_ORDER) + HEAP_START < HEAP_END by omega),
      if_neg hmod]

/-- C4 witness: the amended statement evaluated at order 0, relative address
4096 (an upper buddy: the result is the block at relative address 0). -/
theorem C4_buddy_offset_witness :
    4096 % 2 ^ (0 + START_ORDER) = 0 ∧ 4096 < HEAP_SIZE ∧
      get_buddy_index 0 (HEAP_START + 4096) =
        if 4096 % 2 ^ (0 + 1 + START_ORDER) = 0 then
          (if 4096 + 2 ^ (0 + START_ORDER) < HEAP_SIZE then
             some ((4096 + 2 ^ (0 + START_ORDER)) / PAGESIZE)
           else none)
        else
          some ((4096 - 2 ^ (0 + START_ORDER)) / PAGESIZE) :=
  ⟨by decide, by decide, C4_buddy_offset 0 4096 (by decide) (by decide)⟩

/-- C5: for any state and any pointer inside the heap, the buddy branch of
`dealloc` is independent of the caller-supplied layout, and it equals: take
the block index `(ptr - HEAP_START) / pagesize` and the block's recorded
order, perform some number `k` of coalescing steps — each possible only
because the buddy at the current order exists and is free in the state
reached so far, each removing that buddy from its free list and moving one
order up — stop at the first order whose coalescing step fails, and push the
block onto the free list of the final order. -/
theorem C5_dealloc_characterization (a : BuddyAllocator) (ptr s1 al1 s2 al2 : Nat)
    (h1 : HEAP_START ≤ ptr) (h2 : ptr < HEAP_END) :
    buddy_dealloc a ptr s1 al1 = buddy_dealloc a ptr s2 al2 ∧
    ∃ k,
      buddy_dealloc a ptr s1 al1 =
        push_block
          (coalesce_iter ptr k a ((a.blocks (get_block_index ptr)).order))
          ((a.blocks (get_block_index ptr)).order + k)
          (get_block_index ptr) ∧
      (∀ i, i < k → ∃ b,
        get_buddy_index ((a.blocks (get_block_index ptr)).order + i) ptr = some b ∧
        ((coalesce_iter ptr i a ((a.blocks (get_block_index ptr)).order)).blocks b).free
          = true) ∧
      coalesce_step
        (coalesce_iter ptr k a ((a.blocks (get_block_index ptr)).order))
        ((a.blocks (get_block_index ptr)).order + k) ptr = none := by
  refine ⟨rfl, ?_⟩
  obtain ⟨k, hk1, hk2, hk3⟩ :=
    coalesce_loop_char ptr h1 h2 64 a ((a.blocks (get_block_index ptr)).order)
      (by have h10 : NUM_ORDERS = 10 := by decide
          omega)
  refine ⟨k, ?_, hk2, hk3⟩
  show push_block
      (coalesce_loop 64 a ((a.blocks (get_block_index ptr)).order) ptr).2
      (coalesce_loop 64 a ((a.blocks (get_block_index ptr)).order) ptr).1
      (get_block_index ptr) = _
  rw [hk1]

/-- C5 witness: the characterization applied to the initial allocator state
and the pointer `HEAP_START`, under two different caller-supplied layouts. -/
theorem C5_dealloc_characterization_witness :
    HEAP_START ≤ HEAP_START ∧ HEAP_START < HEAP_END ∧
      (buddy_dealloc BuddyAllocator.new HEAP_START 0 0
          = buddy_dealloc BuddyAllocator.new HEAP_START 4096 8 ∧
        ∃ k,
          buddy_dealloc BuddyAllocator.new HEAP_START 0 0 =
            push_block
              (coalesce_iter HEAP_START k BuddyAllocator.new
                ((BuddyAllocator.new.blocks (get_block_index HEAP_START)).order))
              ((BuddyAllocator.new.blocks (get_block_index HEAP_START)).order + k)
              (get_block_index HEAP_START) ∧
          (∀ i, i < k → ∃ b,
            get_buddy_index
              ((BuddyAllocator.new.blocks (get_block_index HEAP_START)).order + i)
              HEAP_START = some b ∧
            ((coalesce_iter HEAP_START i BuddyAllocator.new
              ((BuddyAllocator.new.blocks (get_block_index HEAP_START)).order)).blocks
              b).free = true) ∧
          coalesce_step
            (coalesce_iter HEAP_START k BuddyAllocator.new
              ((BuddyAllocator.new.blocks (get_block_index HEAP_START)).order))
            ((BuddyAllocator.new.blocks (get_block_index HEAP_START)).order + k)
            HEAP_START = none) :=
  ⟨Nat.le_refl HEAP_START, by decide,
    C5_dealloc_characterization BuddyAllocator.new HEAP_START 0 0 4096 8
      (Nat.le_refl HEAP_START) (by decide)⟩

/-- C6: the claim states that 127 sequential 32-byte allocations fill one
freshly promoted Tiny32 page and the 128th promotes a new Empty page.  Two
facts in the code contradict it.  First, filling a page's bitfield 127 times
from all-zero does hand out the 127 distinct in-range slots 0..126, but the
128th probe returns slot 127 (`find_free_slot` scans all 128 bitfield bits)
even though the page's `entries` array has only `SMALL_32_PAGES_PER_PAGE =
127` elements — in the source this is an out-of-bounds access into
`entries[127]`, not the `None` that would let `alloc_tiny` promote a new
page.  Second, promotion never records the fresh page in the tiny bucket
(`tinyBucket` stays `BUCKET_INDEX_NONE`), so already the second sequential
32-byte allocation promotes a new Empty page (slot address in page 1) instead
of continuing in page 0. -/
theorem C6_tiny_page_slot_overflow :
    (tiny_alloc_seq 127 { w0 := 0, w1 := 0 }).1 = List.range 127 ∧
    (find_free_slot (tiny_alloc_seq 127 { w0 := 0, w1 := 0 }).2).1 = some 127 ∧
    SMALL_32_PAGES_PER_PAGE = 127 ∧
    (sleb_alloc SlebState.init 32).1 = some (page_base 0 + 16) ∧
    (sleb_alloc SlebState.init 32).2.tinyBucket = BUCKET_INDEX_NONE ∧
    (sleb_alloc (sleb_alloc SlebState.init 32).2 32).1 = some (page_base 1 + 16) := by
  refine ⟨by decide, by decide, by decide, by decide, by decide, by decide⟩

/-- C7: the claim states that freeing a Medium-class pointer clears the bit
at index `(ptr - page_base) / class_size`.  The code divides by 32 regardless
of the class: on a Medium64 page (tag 2) with slots 0, 1, 2 allocated
(`extra_bits = 0b111`), freeing slot 1 at `page_base + 64` computes slot
`64 / 32 = 2` and clears bit 2 — leaving `extra_bits = 0b011`, with the freed
slot's bit 1 still set — whereas the claimed computation `64 / 64 = 1` would
clear bit 1 and leave `0b101`. -/
theorem C7_free_medium_clears_wrong_bit :
    (medium64_state.metadata 0).get_type = MetadataType.Medium64 ∧
    Option.map (fun s => (s.metadata 0).extra_bits)
      (sleb_free medium64_state (page_base 0 + 64)) = some 3 ∧
    Nat.testBit 3 1 = true ∧
    (7 : Nat) &&& (u64MAX ^^^ 2 ^ ((page_base 0 + 64) % PAGESIZE / 64)) = 5 ∧
    (3 : Nat) ≠ 5 := by
  refine ⟨by decide, by decide, by decide, by decide, by decide⟩

/-- C8: the claim states that `alloc(N)`, `free(ptr)`, `alloc(N)` reuses the
freed slot or page.  In the code, starting from the fresh Sleb state,
`alloc(64)` promotes page 0 and returns its slot 0; `free` clears the slot
(`extra_bits` back to 0) but does not touch the class bucket (the page was
not full); the second `alloc(64)` finds the bucket still empty and promotes
page 1 — which was `Empty` and becomes `Medium64` — returning `page_base 1`
instead of the freed slot at `page_base 0`. -/
theorem C8_freed_slot_not_reused :
    (sleb_alloc SlebState.init 64).1 = some (page_base 0) ∧
    Option.map (fun s => (s.metadata 0).extra_bits)
      (sleb_free (sleb_alloc SlebState.init 64).2 (page_base 0)) = some 0 ∧
    Option.map (fun s => (sleb_alloc s 64).1)
      (sleb_free (sleb_alloc SlebState.init 64).2 (page_base 0))
      = some (some (page_base 1)) ∧
    Option.map (fun s => (s.metadata 1).get_type)
      (sleb_free (sleb_alloc SlebState.init 64).2 (page_base 0))
      = some MetadataType.Empty ∧
    Option.map (fun s => ((sleb_alloc s 64).2.metadata 1).get_type)
      (sleb_free (sleb_alloc SlebState.init 64).2 (page_base 0))
      = some MetadataType.Medium64 ∧
    page_base 1 ≠ page_base 0 := by
  refine ⟨by decide, by decide, by decide, by decide, by decide, by decide⟩

/-- C9 counterexample: the claim routes a 2049-byte request to the order
whose block size is 8192.  The code computes `round_up_pow2 2049 = 4096` and
routes it to order 0, whose block size is `2^0 * pagesize = 4096` — not
order 1 (8192 bytes). -/
theorem C9_order_for_2049_counterexample :
    dispatch_route 2049 1 = AllocRoute.buddy 0 ∧
    2 ^ 0 * PAGESIZE = 4096 ∧
    AllocRoute.buddy 0 ≠ AllocRoute.buddy 1 ∧
    2 ^ 1 * PAGESIZE = 8192 := by
  refine ⟨by decide, by decide, by decide, by decide⟩

/-- C9 (amended): a request of exactly 2048 bytes with alignment at most
2048 is delegated to Sleb, and a request of 2049 bytes is delegated to the
buddy allocator at order 0, whose block size is 4096 bytes. -/
theorem C9_dispatch_boundary (al : Nat) (hal : al ≤ 2048) :
    dispatch_route 2048 al = AllocRoute.sleb ∧
    dispatch_route 2049 1 = AllocRoute.buddy 0 ∧
    2 ^ 0 * PAGESIZE = 4096 := by
  refine ⟨?_, by decide, by decide⟩
  rw [dispatch_route, if_pos (max_le (by norm_num) hal)]

/-- C9 witness: the boundary theorem applied at alignment 2048. -/
theorem C9_dispatch_boundary_witness :
    (2048 : Nat) ≤ 2048 ∧
      (dispatch_route 2048 2048 = AllocRoute.sleb ∧
        dispatch_route 2049 1 = AllocRoute.buddy 0 ∧
        2 ^ 0 * PAGESIZE = 4096) :=
  ⟨by decide, C9_dispatch_boundary 2048 (by decide)⟩

/-- C10: the claim states that the tag stored by `find_empty_page` for a
medium class decodes back (via `get_type`) to the same class, in particular
for the 256- and 512-byte classes.  The enum declaration assigns
`Medium512 = 4` and `Medium256 = 5` while `get_type` decodes `4 ↦ Medium256`
and `5 ↦ Medium512`, so promoting a page for the 256-byte class
(`alloc_medium` with index 2 stores tag 5) yields a page whose stored type
decodes to `Medium512`, and promoting for the 512-byte class yields
`Medium256` — a subsequent `free` on either page dispatches to the other
class's free routine. -/
theorem C10_type_tag_roundtrip_swapped :
    (medium_promotion 2).1 = MetadataType.Medium256 ∧
    MetadataType.tag MetadataType.Medium256 = 5 ∧
    ((alloc_medium SlebState.init 2).2.metadata 0).get_type = MetadataType.Medium512 ∧
    (medium_promotion 3).1 = MetadataType.Medium512 ∧
    MetadataType.tag MetadataType.Medium512 = 4 ∧
    ((alloc_medium SlebState.init 3).2.metadata 0).get_type = MetadataType.Medium256 ∧
    MetadataType.Medium512 ≠ MetadataType.Medium256 := by
  refine ⟨by decide, by decide, by decide, by decide, by decide, by decide, by decide⟩
